import Mathlib

/-!
Verification of forkspoon (cmd/forkspoon/main.go), a FUSE loopback
filesystem whose metadata caching is delegated to the kernel VFS cache
via TTL hints attached to responses.  The Go handlers are embedded as
pure Lean functions over explicit backend oracles; each handler returns
a trace recording the metrics/log events it emitted, the backend calls
it made, and the response handed back to the transport layer.
-/

namespace Forkspoon

/-- POSIX errno value carried by `syscall.Errno`; `0` means success.
`fs.ToErrno` applied to an error produced by a raw syscall wrapper is
the identity on the underlying errno, so backend errors are modelled
directly as errno values. -/
abbrev Errno := Nat

/-- Stat-equivalent record filled by the backend `syscall.Lstat`
(the fields the handlers actually consume: `out.FromStat` copies the
attributes wholesale, `fs.StableAttr` uses `Mode` and `Ino`). -/
structure Stat where
  mode : Nat
  ino : Nat
  size : Nat
  deriving Repr, DecidableEq

/-! ### Go path/filepath (unix) — `Clean` and two-argument `Join`,
used by the handlers to compute backend paths. `Clean` is expressed in
its equivalent segment-stack form: split on `/`, drop empty and `.`
segments, resolve `..` against the stack (dropping it at the root of a
rooted path), and re-join. -/

/-- One step of `filepath.Clean`: push a plain segment, resolve `..`. -/
def cleanStep (rooted : Bool) (acc : List String) (seg : String) : List String :=
  if seg = ".." then
    match acc with
    | [] => if rooted then [] else [".."]
    | t :: rest => if t = ".." then seg :: acc else rest
  else
    seg :: acc

/-- Split a character list into the segments between `/` characters. -/
def segsAux (cur : List Char) : List Char → List (List Char)
  | [] => [cur.reverse]
  | c :: cs => if c = '/' then cur.reverse :: segsAux [] cs
               else segsAux (c :: cur) cs

/-- Go `path/filepath.Clean` for unix paths. -/
def filepathClean (path : String) : String :=
  if path = "" then "."
  else
    let chars := path.data
    let rooted := chars.head? == some '/'
    let segs := ((segsAux [] chars).map String.mk).filter
      (fun s => s ≠ "" && s ≠ ".")
    let out := (segs.foldl (cleanStep rooted) []).reverse
    let body := String.intercalate "/" out
    if rooted then "/" ++ body
    else if body = "" then "." else body

/-- Go `path/filepath.Join` restricted to two elements, as every call
site in main.go uses it: empty elements are skipped, the rest joined
with `/` and cleaned; all-empty yields `""`. -/
def filepathJoin (a b : String) : String :=
  if a = "" && b = "" then ""
  else if a = "" then filepathClean b
  else if b = "" then filepathClean a
  else filepathClean (a ++ "/" ++ b)

/-! ### Metrics/log events (logTransaction, updateMetrics) -/

/-- One call to `logTransaction(op, path, cached)` / the paired
`updateMetrics(op, cached)`: the handlers of main.go always emit the
two together with the same arguments, so they are modelled as a single
event. -/
structure Event where
  op : String
  path : String
  cached : Bool
  deriving Repr, DecidableEq

/-- Status string computed inside `logTransaction` (main.go:67-72):
`CACHE_HIT` when `cached`, else `CACHE_MISS` for the three metadata
operations, else `PASSTHROUGH`. -/
def cacheStatusOf (op : String) (cached : Bool) : String :=
  if cached then "CACHE_HIT"
  else if op = "GETATTR" || op = "LOOKUP" || op = "READDIR" then "CACHE_MISS"
  else "PASSTHROUGH"

/-- Status of an event as `logTransaction` would record it. -/
def Event.status (e : Event) : String := cacheStatusOf e.op e.cached

/-! ### Metadata responses

`fuse.AttrOut` carries attributes plus one attribute timeout
(`SetTimeout`); `fuse.EntryOut` carries attributes plus an entry
timeout and an attribute timeout; `Readdir` returns only
`(fs.DirStream, syscall.Errno)` — the go-fuse `DirStream` is a plain
iterator of directory entries and has no timeout field, so a
directory-listing response structurally carries no TTL hint. -/

/-- `fuse.AttrOut`: timeout fields are `none` until `SetTimeout` runs.
Durations are Go `time.Duration` values (int64 nanoseconds). -/
structure AttrOut where
  attr : Option Stat := none
  timeout : Option Int := none
  deriving Repr, DecidableEq

/-- `fuse.EntryOut`. -/
structure EntryOut where
  attr : Option Stat := none
  entryTimeout : Option Int := none
  attrTimeout : Option Int := none
  deriving Repr, DecidableEq

/-- A directory entry as produced by `fs.NewLoopbackDirStream`. -/
structure DirEntry where
  name : String
  mode : Nat
  deriving Repr, DecidableEq

/-- The response a metadata handler hands back to the transport layer. -/
inductive MetaResponse where
  | attrResp (out : AttrOut) (errno : Errno)
  | entryResp (out : EntryOut) (node : Option (Nat × Nat)) (errno : Errno)
  | dirResp (stream : Option (List DirEntry)) (errno : Errno)
  deriving Repr, DecidableEq

/-- The errno of a response. -/
def MetaResponse.errno : MetaResponse → Errno
  | .attrResp _ e => e
  | .entryResp _ _ e => e
  | .dirResp _ e => e

/-- Every cache-control TTL hint present in a response.  `AttrOut`
contributes its attribute timeout, `EntryOut` its entry timeout then
its attribute timeout; a `Readdir` response has no timeout field at
all in go-fuse, hence contributes nothing. -/
def MetaResponse.ttlHints : MetaResponse → List Int
  | .attrResp out _ => out.timeout.toList
  | .entryResp out _ _ => out.entryTimeout.toList ++ out.attrTimeout.toList
  | .dirResp _ _ => []

/-- The attributes populated into the response, if any. -/
def MetaResponse.attrs : MetaResponse → Option Stat
  | .attrResp out _ => out.attr
  | .entryResp out _ _ => out.attr
  | .dirResp _ _ => none

/-- Trace of one handler invocation: events emitted to the metrics/log
collaborator, paths passed to the backend, and the response. -/
structure HandlerTrace where
  events : List Event
  backendCalls : List String
  resp : MetaResponse
  deriving Repr, DecidableEq

/-! ### Metadata handlers (main.go) -/

/-- `loopbackNode.Getattr` (main.go:236-261), with the node's backend
path `p` and the global `cacheTTL` passed explicitly and the backend
`syscall.Lstat` as an oracle.  The handler unconditionally emits a
miss event, calls `Lstat`, returns the errno unchanged on failure, and
on success fills the attributes and sets the attribute timeout to
`cacheTTL`. -/
def getattrHandler (lstat : String → Except Errno Stat) (cacheTTL : Int)
    (p : String) : HandlerTrace :=
  let ev : List Event := [⟨"GETATTR", p, false⟩]
  match lstat p with
  | .error e => ⟨ev, [p], .attrResp {} e⟩
  | .ok st => ⟨ev, [p], .attrResp { attr := some st, timeout := some cacheTTL } 0⟩

/-- `loopbackNode.Lookup` (main.go:319-345): joins the parent's backend
path with the child name, emits a miss event, calls `Lstat`, propagates
the errno unchanged on failure, and on success fills the entry
attributes, sets both the entry timeout and the attribute timeout to
`cacheTTL`, and mints an inode with `StableAttr{Mode, Ino}`. -/
def lookupHandler (lstat : String → Except Errno Stat) (cacheTTL : Int)
    (parentPath name : String) : HandlerTrace :=
  let p := filepathJoin parentPath name
  let ev : List Event := [⟨"LOOKUP", p, false⟩]
  match lstat p with
  | .error e => ⟨ev, [p], .entryResp {} none e⟩
  | .ok st =>
      ⟨ev, [p],
        .entryResp
          { attr := some st, entryTimeout := some cacheTTL, attrTimeout := some cacheTTL }
          (some (st.mode, st.ino)) 0⟩

/-- `loopbackNode.Readdir` (main.go:348-357): emits a miss event and
returns `fs.NewLoopbackDirStream(n.path())` directly; the backend
directory read is the oracle `readDir`.  The global `cacheTTL` is not
consulted: the `(DirStream, Errno)` return carries no timeout field. -/
def readdirHandler (readDir : String → Except Errno (List DirEntry))
    (p : String) : HandlerTrace :=
  let ev : List Event := [⟨"READDIR", p, false⟩]
  match readDir p with
  | .error e => ⟨ev, [p], .dirResp none e⟩
  | .ok entries => ⟨ev, [p], .dirResp (some entries) 0⟩

/-! ### Data handlers (passthrough) -/

/-- Trace of one `loopbackFile.Read` (main.go:613-622): emits a READ
passthrough event, calls `syscall.Pread(f.fd, dest, off)` once, and on
success returns `fuse.ReadResultData(dest[:n])` — exactly the bytes the
backend wrote, whose count `n` the backend returned.  The backend
oracle maps `(fd, buffer length, offset)` to either an errno or the
bytes read. -/
structure ReadTrace where
  events : List Event
  preadCalls : List (Nat × Nat × Int)
  result : Except Errno (List Nat)
  deriving Repr

/-- `loopbackFile.Read`. -/
def readHandler (pread : Nat → Nat → Int → Except Errno (List Nat))
    (fd : Nat) (path : String) (bufLen : Nat) (off : Int) : ReadTrace :=
  { events := [⟨"READ", path, false⟩],
    preadCalls := [(fd, bufLen, off)],
    result := pread fd bufLen off }

/-- Trace of one `loopbackFile.Write` (main.go:625-631): emits a WRITE
passthrough event, calls `syscall.Pwrite(f.fd, data, off)` once, and
returns `(uint32(n), ToErrno(err))`, where `n` is the Go `int` the
backend returned (converted mod 2^32) and the errno is unchanged. -/
structure WriteTrace where
  events : List Event
  pwriteCalls : List (Nat × List Nat × Int)
  written : Nat
  errno : Errno
  deriving Repr, DecidableEq

/-- `loopbackFile.Write`.  The backend oracle returns the pair
`(n, err)` of `syscall.Pwrite`. -/
def writeHandler (pwrite : Nat → List Nat → Int → Int × Errno)
    (fd : Nat) (path : String) (data : List Nat) (off : Int) : WriteTrace :=
  let r := pwrite fd data off
  { events := [⟨"WRITE", path, false⟩],
    pwriteCalls := [(fd, data, off)],
    written := (r.1 % (2 ^ 32 : Int)).toNat,
    errno := r.2 }

/-! ### Rename handlers -/

/-- The `fs.InodeEmbedder` passed as `newParent` to `Rename`.  The two
type switches in main.go:565-570 and main.go:588-593 recognize
`*rootNode` and `*loopbackNode`; any other embedder falls through both
cases.  For a `loopbackNode` the stored string is the value of
`parent.path()` (the backend root joined with the node's relative
path). -/
inductive NodeRef where
  | rootNode (rootPath : String)
  | loopbackNode (path : String)
  | other
  deriving Repr, DecidableEq

/-- Destination path computed by the type switch: `newPath` is
initialized to `""` and only the two recognized node types assign it. -/
def newPathOf : NodeRef → String → String
  | .rootNode rp, newName => filepathJoin rp newName
  | .loopbackNode p, newName => filepathJoin p newName
  | .other, _ => ""

/-- Trace of one `Rename` handler invocation. -/
structure RenameTrace where
  events : List Event
  renameCalls : List (String × String)
  errno : Errno
  deriving Repr, DecidableEq

/-- `rootNode.Rename` (main.go:561-581) and `loopbackNode.Rename`
(main.go:584-604) share this body, differing only in the self backend
path (`r.rootPath` vs `n.path()`), passed here as `selfPath`.  The
handler computes `oldPath`, runs the type switch for `newPath`, emits
one RENAME passthrough event, and calls `syscall.Rename(oldPath,
newPath)` returning its errno unchanged. -/
def renameHandler (renameSys : String → String → Errno)
    (selfPath name : String) (newParent : NodeRef) (newName : String) :
    RenameTrace :=
  let oldPath := filepathJoin selfPath name
  let newPath := newPathOf newParent newName
  { events := [⟨"RENAME", oldPath ++ " -> " ++ newPath, false⟩],
    renameCalls := [(oldPath, newPath)],
    errno := renameSys oldPath newPath }

/-! ### The full set of operation handlers and their event emissions -/

/-- Every operation handler defined in main.go. -/
inductive Handler where
  | getattrLoopback
  | getattrRoot
  | lookupRoot
  | lookupLoopback
  | readdir
  | openFile
  | createRoot
  | createLoopback
  | mkdirRoot
  | mkdirLoopback
  | unlinkRoot
  | unlinkLoopback
  | rmdirRoot
  | rmdirLoopback
  | renameRoot
  | renameLoopback
  | readFile
  | writeFile
  | release
  | opendir
  deriving Repr, DecidableEq

/-- The `(op, cached)` argument pairs each handler passes to
`logTransaction`/`updateMetrics`, transcribed from main.go: every
handler except `Release` (main.go:634-637) and `Opendir`
(main.go:640-645) makes exactly one such call, always with
`cached = false`; `Release` and `Opendir` make none. -/
def handlerEmits : Handler → List (String × Bool)
  | .getattrLoopback => [("GETATTR", false)]
  | .getattrRoot => [("GETATTR", false)]
  | .lookupRoot => [("LOOKUP", false)]
  | .lookupLoopback => [("LOOKUP", false)]
  | .readdir => [("READDIR", false)]
  | .openFile => [("OPEN", false)]
  | .createRoot => [("CREATE", false)]
  | .createLoopback => [("CREATE", false)]
  | .mkdirRoot => [("MKDIR", false)]
  | .mkdirLoopback => [("MKDIR", false)]
  | .unlinkRoot => [("UNLINK", false)]
  | .unlinkLoopback => [("UNLINK", false)]
  | .rmdirRoot => [("RMDIR", false)]
  | .rmdirLoopback => [("RMDIR", false)]
  | .renameRoot => [("RENAME", false)]
  | .renameLoopback => [("RENAME", false)]
  | .readFile => [("READ", false)]
  | .writeFile => [("WRITE", false)]
  | .release => []
  | .opendir => []

/-- Whether a handler serves one of the three metadata operations
(get attributes, resolve name, list directory). -/
def Handler.isMetadata : Handler → Bool
  | .getattrLoopback => true
  | .getattrRoot => true
  | .lookupRoot => true
  | .lookupLoopback => true
  | .readdir => true
  | _ => false

/-! ### Configuration surface (main.go:649-658 flag definitions,
main.go:711-722 mount options) -/

/-- Default cache TTL: `5 * time.Minute` in nanoseconds. -/
def DEFAULT_CACHE_TTL : Int := 5 * 60 * 1000000000

/-- The values of the eight command-line flags after `flag.Parse()`.
`cacheTTL` is a `time.Duration` (int64 nanoseconds). -/
structure Flags where
  backend : String
  mountpoint : String
  verbose : Bool
  debug : Bool
  cacheTTL : Int
  allowOther : Bool
  transLog : String
  statsFile : String
  deriving Repr, DecidableEq

/-- The flag values when no command-line input overrides them. -/
def defaultFlags : Flags :=
  { backend := "", mountpoint := "", verbose := false, debug := false,
    cacheTTL := DEFAULT_CACHE_TTL, allowOther := false, transLog := "",
    statsFile := "" }

/-- The names of the command-line flags registered in main.go:649-656:
these are the only configuration inputs the program accepts. -/
def recognizedFlags : List String :=
  ["backend", "mountpoint", "verbose", "debug", "cache-ttl",
   "allow-other", "trans-log", "stats-file"]

/-- The `fs.Options` built in main.go:711-722. -/
structure FSOptions where
  attrTimeout : Int
  entryTimeout : Int
  negativeTimeout : Int
  allowOther : Bool
  fsName : String
  debug : Bool
  deriving Repr, DecidableEq

/-- Mount-option construction: `zeroTimeout := 0`; `AttrTimeout` and
`EntryTimeout` point at it; `NegativeTimeout` points at the parsed
`cache-ttl` flag value. -/
def mkOptions (f : Flags) : FSOptions :=
  { attrTimeout := 0, entryTimeout := 0, negativeTimeout := f.cacheTTL,
    allowOther := f.allowOther, fsName := "my-cache-fs", debug := f.debug }

/-! ### Hit-rate computation (main.go:118-124) -/

/-- Modulus of Go `uint64` arithmetic. -/
def UINT64_MOD : Nat := 2 ^ 64

/-- `getHitRate(hits, misses)`: `total := hits + misses` is a `uint64`
sum, so it wraps modulo 2^64; when the (wrapped) total is zero the
function returns 0, otherwise `float64(hits) * 100 / float64(total)`.
The `float64` conversions and arithmetic are modelled as exact rational
arithmetic. -/
def getHitRate (hits misses : Nat) : ℚ :=
  if (hits + misses) % UINT64_MOD = 0 then 0
  else (hits : ℚ) * 100 / (((hits + misses) % UINT64_MOD : Nat) : ℚ)

/-! ### TTL Cache Store -/

/-- Modelled from the spec: no in-process TTL cache store exists under
src/ (every metadata handler of main.go goes straight to the backend);
this models §4.1 of the design — a mapping from keys to a value plus an
expiry instant, where `put(k, v, ttl)` sets `expires_at = now + ttl`
and `get(k)` returns the value iff `now < expires_at`, treating an
expired entry exactly like an absent one. -/
def TTLStore (V : Type) := String → Option (V × Nat)

/-- The empty store. -/
def TTLStore.empty (V : Type) : TTLStore V := fun _ => none

/-- `put(key, value, ttl)` at time `now`: insert or overwrite with
`expires_at = now + ttl` (last-writer-wins). -/
def TTLStore.put {V : Type} (s : TTLStore V) (k : String) (v : V)
    (ttl now : Nat) : TTLStore V :=
  fun q => if q = k then some (v, now + ttl) else s q

/-- `remove(key)`: unconditional eviction. -/
def TTLStore.remove {V : Type} (s : TTLStore V) (k : String) : TTLStore V :=
  fun q => if q = k then none else s q

/-- `get(key)` at time `now`: `some value` iff an entry exists and
`now < expires_at`; an expired entry behaves as absent. -/
def TTLStore.get {V : Type} (s : TTLStore V) (k : String) (now : Nat) :
    Option V :=
  match s k with
  | none => none
  | some (v, exp) => if now < exp then some v else none

/-! ## Theorems -/

/-- C3: TTL correctness of the cache store — for all keys `k`, if
`put(k, v, ttl)` occurs at time `t`, then `get(k)` returns `some v`
for every read at time `t'` with `t ≤ t' < t + ttl`, and returns
`none` for every read at `t' ≥ t + ttl`, with no intervening `put` or
`remove` for `k`. -/
theorem ttlStore_ttl_correct {V : Type} (s : TTLStore V) (k : String)
    (v : V) (ttl t t' : Nat) :
    (t ≤ t' → t' < t + ttl → (s.put k v ttl t).get k t' = some v) ∧
    (t + ttl ≤ t' → (s.put k v ttl t).get k t' = none) := by
  constructor
  · intro _ h2
    simp [TTLStore.put, TTLStore.get, h2]
  · intro h
    simp [TTLStore.put, TTLStore.get, Nat.not_lt.mpr h]

/-- Witness for C3: `put("/a", 7, ttl 5)` at time 10 is visible at
time 12 and expired at time 15. -/
theorem ttlStore_ttl_correct_witness :
    ((TTLStore.empty Nat).put "/a" 7 5 10).get "/a" 12 = some 7 ∧
    ((TTLStore.empty Nat).put "/a" 7 5 10).get "/a" 15 = none :=
  ⟨(ttlStore_ttl_correct (TTLStore.empty Nat) "/a" 7 5 10 12).1
      (by decide) (by decide),
   (ttlStore_ttl_correct (TTLStore.empty Nat) "/a" 7 5 10 15).2 (by decide)⟩

/-- C9 counterexample: at hits = misses = 2^63 the `uint64` total
wraps to zero, so `getHitRate` returns 0, while the claimed value
`h * 100 / (h + m)` is 50 — the claim as stated over all counts fails
on sums that overflow 64 bits. -/
theorem getHitRate_overflow_cex :
    getHitRate (2 ^ 63) (2 ^ 63) = 0 ∧
    (2 ^ 63 : ℚ) * 100 / ((2 ^ 63 : ℚ) + (2 ^ 63 : ℚ)) = 50 := by
  constructor
  · norm_num [getHitRate, UINT64_MOD]
  · norm_num

/-- C9 (amended): for all hit and miss counts whose true sum fits in
64 bits, `getHitRate` returns 0 when `h + m = 0` and otherwise
`h * 100 / (h + m)` with a nonzero divisor — it never divides by
zero. -/
theorem getHitRate_division_safe (h m : Nat) (hb : h + m < 2 ^ 64) :
    (h + m = 0 → getHitRate h m = 0) ∧
    (h + m ≠ 0 →
      getHitRate h m = (h : ℚ) * 100 / ((h : ℚ) + (m : ℚ)) ∧
      (h : ℚ) + (m : ℚ) ≠ 0) := by
  have hmod : (h + m) % UINT64_MOD = h + m :=
    Nat.mod_eq_of_lt (by simpa [UINT64_MOD] using hb)
  constructor
  · intro h0
    simp [getHitRate, hmod, h0]
  · intro h0
    have hne : (h : ℚ) + (m : ℚ) ≠ 0 := by
      have := Nat.cast_ne_zero (R := ℚ).mpr h0
      push_cast at this
      exact this
    refine ⟨?_, hne⟩
    simp only [getHitRate, hmod, h0, if_neg h0]
    push_cast
    ring

/-- Witness for C9 (amended): `getHitRate 3 1 = 75`. -/
theorem getHitRate_division_safe_witness :
    getHitRate 3 1 = 75 ∧ (3 : ℚ) + (1 : ℚ) ≠ 0 := by
  have h := (getHitRate_division_safe 3 1 (by norm_num)).2 (by norm_num)
  refine ⟨?_, h.2⟩
  rw [h.1]
  norm_num

/-- C10: in the rename handlers an unrecognized new-parent node type
leaves the destination path as the empty string and the backend rename
is invoked with that empty destination; for the two recognized node
types the destination is the join of the new parent's backend path
with the new name. -/
theorem rename_destination_by_parent_type
    (renameSys : String → String → Errno) (selfPath name newName : String) :
    ((renameHandler renameSys selfPath name .other newName).renameCalls =
        [(filepathJoin selfPath name, "")] ∧
      (renameHandler renameSys selfPath name .other newName).errno =
        renameSys (filepathJoin selfPath name) "") ∧
    (∀ rp,
      (renameHandler renameSys selfPath name (.rootNode rp) newName).renameCalls =
        [(filepathJoin selfPath name, filepathJoin rp newName)]) ∧
    (∀ pp,
      (renameHandler renameSys selfPath name (.loopbackNode pp) newName).renameCalls =
        [(filepathJoin selfPath name, filepathJoin pp newName)]) :=
  ⟨⟨rfl, rfl⟩, fun _ => rfl, fun _ => rfl⟩

/-- Witness for C10: a rename under an unrecognized parent invokes the
backend with destination `""`. -/
theorem rename_destination_by_parent_type_witness :
    (renameHandler (fun _ _ => 0) "/root" "a" .other "b").renameCalls =
      [("/root/a", "")] := by
  have h := (rename_destination_by_parent_type (fun _ _ => 0) "/root" "a" "b").1.1
  rw [h]
  decide

/-- C6: every read and write forwards the offset and the data buffer
to the backend unchanged, and the byte count the backend returns is
returned to the caller unchanged. -/
theorem read_write_passthrough
    (pread : Nat → Nat → Int → Except Errno (List Nat))
    (pwrite : Nat → List Nat → Int → Int × Errno)
    (fd : Nat) (path : String) (bufLen : Nat) (data : List Nat) (off : Int) :
    (readHandler pread fd path bufLen off).preadCalls = [(fd, bufLen, off)] ∧
    (readHandler pread fd path bufLen off).result = pread fd bufLen off ∧
    (writeHandler pwrite fd path data off).pwriteCalls = [(fd, data, off)] ∧
    (writeHandler pwrite fd path data off).errno = (pwrite fd data off).2 ∧
    (0 ≤ (pwrite fd data off).1 → (pwrite fd data off).1 < 2 ^ 32 →
      ((writeHandler pwrite fd path data off).written : Int) =
        (pwrite fd data off).1) := by
  refine ⟨rfl, rfl, rfl, rfl, fun h1 h2 => ?_⟩
  simp only [writeHandler]
  rw [Int.emod_eq_of_lt h1 h2, Int.toNat_of_nonneg h1]

/-- Witness for C6: a concrete read forwards `(fd, bufLen, off)` and a
concrete 3-byte write reports 3 bytes written. -/
theorem read_write_passthrough_witness :
    (readHandler (fun _ _ _ => Except.ok [1, 2]) 3 "/f" 8 5).preadCalls =
      [(3, 8, 5)] ∧
    ((writeHandler (fun _ d _ => ((d.length : Int), 0)) 3 "/f" [9, 9, 9] 5).written :
      Int) = 3 := by
  have h := read_write_passthrough (fun _ _ _ => Except.ok [1, 2])
    (fun _ d _ => ((d.length : Int), 0)) 3 "/f" 8 [9, 9, 9] 5
  refine ⟨h.1, ?_⟩
  have h5 := h.2.2.2.2 (by norm_num) (by norm_num)
  rw [h5]
  norm_num

/-- C5: when the backend stat on a metadata miss fails, the handler
returns the backend's errno unchanged, populates no output attributes,
and attaches no TTL hint (and there is no in-process store in which a
positive record could be cached). -/
theorem metadata_error_passthrough
    (lstat : String → Except Errno Stat) (cacheTTL : Int)
    (p parentPath name : String) (e e' : Errno)
    (hg : lstat p = .error e)
    (hl : lstat (filepathJoin parentPath name) = .error e') :
    ((getattrHandler lstat cacheTTL p).resp.errno = e ∧
      (getattrHandler lstat cacheTTL p).resp.attrs = none ∧
      (getattrHandler lstat cacheTTL p).resp.ttlHints = []) ∧
    ((lookupHandler lstat cacheTTL parentPath name).resp.errno = e' ∧
      (lookupHandler lstat cacheTTL parentPath name).resp.attrs = none ∧
      (lookupHandler lstat cacheTTL parentPath name).resp.ttlHints = []) := by
  constructor
  · simp [getattrHandler, hg, MetaResponse.errno, MetaResponse.attrs,
      MetaResponse.ttlHints]
  · simp [lookupHandler, hl, MetaResponse.errno, MetaResponse.attrs,
      MetaResponse.ttlHints]

/-- Witness for C5: a backend failing with errno 13 surfaces errno 13
from get-attributes and leaves lookup attributes empty. -/
theorem metadata_error_passthrough_witness :
    (getattrHandler (fun _ => Except.error 13) 300 "/a").resp.errno = 13 ∧
    (lookupHandler (fun _ => Except.error 13) 300 "/a" "b").resp.attrs = none := by
  have h := metadata_error_passthrough (fun _ => Except.error 13) 300
    "/a" "/a" "b" 13 13 rfl rfl
  exact ⟨h.1.1, h.2.2.1⟩

/-- C8: with a configured cache TTL of zero, no metadata response
instructs any cache layer to retain a result for a positive duration:
every TTL hint a metadata handler attaches is zero, the list-directory
response carries none, and the mount options give the kernel a zero
negative-entry timeout and zero default attribute/entry timeouts. -/
theorem zero_ttl_never_caches
    (ttl : Int) (httl : ttl = 0) (f : Flags) (hf : f.cacheTTL = 0)
    (lstat : String → Except Errno Stat)
    (readDir : String → Except Errno (List DirEntry))
    (p parentPath name : String) :
    (∀ d ∈ (getattrHandler lstat ttl p).resp.ttlHints, d = 0) ∧
    (∀ d ∈ (lookupHandler lstat ttl parentPath name).resp.ttlHints, d = 0) ∧
    (readdirHandler readDir p).resp.ttlHints = [] ∧
    (mkOptions f).negativeTimeout = 0 ∧
    (mkOptions f).attrTimeout = 0 ∧
    (mkOptions f).entryTimeout = 0 := by
  subst httl
  refine ⟨?_, ?_, ?_, by simp [mkOptions, hf], rfl, rfl⟩
  · cases h : lstat p <;>
      simp [getattrHandler, h, MetaResponse.ttlHints]
  · cases h : lstat (filepathJoin parentPath name) <;>
      simp [lookupHandler, h, MetaResponse.ttlHints]
  · cases h : readDir p <;>
      simp [readdirHandler, h, MetaResponse.ttlHints]

/-- Witness for C8: with TTL 0, a successful get-attributes response
carries only zero hints and the negative-entry timeout is zero. -/
theorem zero_ttl_never_caches_witness :
    (∀ d ∈ (getattrHandler (fun _ => Except.ok ⟨420, 7, 0⟩) 0 "/a").resp.ttlHints,
      d = 0) ∧
    (mkOptions { defaultFlags with cacheTTL := 0 }).negativeTimeout = 0 := by
  have h := zero_ttl_never_caches 0 rfl { defaultFlags with cacheTTL := 0 } rfl
    (fun _ => Except.ok ⟨420, 7, 0⟩) (fun _ => Except.ok []) "/a" "/a" "b"
  exact ⟨h.1, h.2.2.2.1⟩

/-- C7 counterexample: the program's configuration inputs are exactly
the eight registered flags; they include ones setting the backend root
and the cache TTL, but no flag for a negative-caching boolean exists
under either naming convention, and the default configuration already
has a nonzero negative-entry timeout fixed to the cache TTL. -/
theorem no_negative_caching_flag :
    "backend" ∈ recognizedFlags ∧ "cache-ttl" ∈ recognizedFlags ∧
    "allow-negative-caching" ∉ recognizedFlags ∧
    "allow_negative_caching" ∉ recognizedFlags ∧
    (mkOptions defaultFlags).negativeTimeout = DEFAULT_CACHE_TTL := by
  refine ⟨by decide, by decide, by decide, by decide, rfl⟩

/-- C7 (amended): the configuration surface recognizes a cache-ttl
duration (flag cache-ttl) and the backend root (flag backend), but no
negative-caching option: negative caching is unconditionally enabled
with a timeout always equal to the configured cache TTL. -/
theorem config_surface (f : Flags) :
    "backend" ∈ recognizedFlags ∧ "cache-ttl" ∈ recognizedFlags ∧
    "allow-negative-caching" ∉ recognizedFlags ∧
    (mkOptions f).negativeTimeout = f.cacheTTL :=
  ⟨by decide, by decide, by decide, rfl⟩

/-- Witness for C7 (amended): at the default configuration the
negative-entry timeout equals the configured cache TTL. -/
theorem config_surface_witness :
    (mkOptions defaultFlags).negativeTimeout = defaultFlags.cacheTTL :=
  (config_surface defaultFlags).2.2.2

/-- C4 counterexample: the Release handler — the close operation, a
data operation handled by the dispatcher — emits no metrics/log event
at all, so it does not emit exactly one. -/
theorem release_emits_no_event :
    handlerEmits Handler.release = [] ∧
    ¬ (handlerEmits Handler.release).length = 1 := by
  decide

/-- C4 (amended): every operation handler except Release and Opendir
emits exactly one metrics/log event, always with cached = false — so a
Hit outcome is never produced, matching that no result is ever served
from an in-process cache — and the recorded status is CACHE_MISS
exactly for the metadata handlers (which always reach the backend) and
PASSTHROUGH for the data handlers. -/
theorem handlers_emit_one_event (h : Handler)
    (h1 : h ≠ Handler.release) (h2 : h ≠ Handler.opendir) :
    (handlerEmits h).length = 1 ∧
    ∀ e ∈ handlerEmits h, e.2 = false ∧
      cacheStatusOf e.1 e.2 =
        (if h.isMetadata then "CACHE_MISS" else "PASSTHROUGH") ∧
      cacheStatusOf e.1 e.2 ≠ "CACHE_HIT" := by
  cases h <;>
    first
      | exact absurd rfl h1
      | exact absurd rfl h2
      | decide

/-- Witness for C4 (amended): the get-attributes handler emits exactly
one event. -/
theorem handlers_emit_one_event_witness :
    (handlerEmits Handler.getattrLoopback).length = 1 :=
  (handlers_emit_one_event Handler.getattrLoopback (by decide) (by decide)).1

/-- C2 counterexample: a successful list-directory response carries no
cache-control TTL hint at all — in particular none equal to the
configured cache TTL. -/
theorem readdir_response_has_no_ttl_hint :
    (readdirHandler (fun _ => Except.ok []) "/d").resp.errno = 0 ∧
    (readdirHandler (fun _ => Except.ok []) "/d").resp.ttlHints = [] :=
  ⟨rfl, rfl⟩

/-- C2 (amended): a successful get-attributes response carries exactly
one TTL hint equal to the configured cache TTL, a successful
name-resolution response carries its entry and attribute hints both
equal to that TTL, and a list-directory response carries no TTL hint
of its own. -/
theorem metadata_response_ttl_hints
    (lstat : String → Except Errno Stat)
    (readDir : String → Except Errno (List DirEntry))
    (cacheTTL : Int) (p parentPath name : String) (st st' : Stat)
    (hg : lstat p = .ok st)
    (hl : lstat (filepathJoin parentPath name) = .ok st') :
    (getattrHandler lstat cacheTTL p).resp.ttlHints = [cacheTTL] ∧
    (lookupHandler lstat cacheTTL parentPath name).resp.ttlHints =
      [cacheTTL, cacheTTL] ∧
    (readdirHandler readDir p).resp.ttlHints = [] := by
  refine ⟨?_, ?_, ?_⟩
  · simp [getattrHandler, hg, MetaResponse.ttlHints]
  · simp [lookupHandler, hl, MetaResponse.ttlHints]
  · cases h : readDir p <;>
      simp [readdirHandler, h, MetaResponse.ttlHints]

/-- Witness for C2 (amended): with TTL 300s (in ns) a successful
get-attributes response carries exactly that one hint. -/
theorem metadata_response_ttl_hints_witness :
    (getattrHandler (fun _ => Except.ok ⟨420, 7, 0⟩) 300000000000 "/a").resp.ttlHints =
      [300000000000] :=
  (metadata_response_ttl_hints (fun _ => Except.ok ⟨420, 7, 0⟩)
    (fun _ => Except.ok []) 300000000000 "/a" "/a" "b" ⟨420, 7, 0⟩ ⟨420, 7, 0⟩
    rfl rfl).1

/-- C1 counterexample: two invocations of the get-attributes handler
for the same key perform two backend calls, not at most one — the
handler keeps no state and consults no store, so this holds regardless
of any TTL window or intervening mutation. -/
theorem getattr_twice_two_backend_calls :
    ((getattrHandler (fun _ => Except.ok ⟨420, 7, 0⟩) 300 "/a").backendCalls ++
        (getattrHandler (fun _ => Except.ok ⟨420, 7, 0⟩) 300 "/a").backendCalls).length
      = 2 ∧
    ¬ ((getattrHandler (fun _ => Except.ok ⟨420, 7, 0⟩) 300 "/a").backendCalls ++
        (getattrHandler (fun _ => Except.ok ⟨420, 7, 0⟩) 300 "/a").backendCalls).length
      ≤ 1 :=
  ⟨rfl, by decide⟩

/-- C1 (amended): no metadata handler consults an in-process cache
store; every invocation performs exactly one backend call and emits
exactly one miss event, so repeat invocations repeat the backend call —
suppression of repeats within the TTL window happens only in the
kernel, via the returned TTL hints, by not invoking the handler at
all. -/
theorem metadata_handlers_always_call_backend
    (lstat : String → Except Errno Stat)
    (readDir : String → Except Errno (List DirEntry))
    (cacheTTL : Int) (p parentPath name : String) :
    (getattrHandler lstat cacheTTL p).backendCalls = [p] ∧
    (getattrHandler lstat cacheTTL p).events.map Event.status = ["CACHE_MISS"] ∧
    (lookupHandler lstat cacheTTL parentPath name).backendCalls =
      [filepathJoin parentPath name] ∧
    (lookupHandler lstat cacheTTL parentPath name).events.map Event.status =
      ["CACHE_MISS"] ∧
    (readdirHandler readDir p).backendCalls = [p] ∧
    (readdirHandler readDir p).events.map Event.status = ["CACHE_MISS"] := by
  refine ⟨?_, ?_, ?_, ?_, ?_, ?_⟩
  · cases h : lstat p <;> simp [getattrHandler, h]
  · cases h : lstat p <;>
      simp [getattrHandler, h, Event.status, cacheStatusOf]
  · cases h : lstat (filepathJoin parentPath name) <;>
      simp [lookupHandler, h]
  · cases h : lstat (filepathJoin parentPath name) <;>
      simp [lookupHandler, h, Event.status, cacheStatusOf]
  · cases h : readDir p <;> simp [readdirHandler, h]
  · cases h : readDir p <;>
      simp [readdirHandler, h, Event.status, cacheStatusOf]

/-- Witness for C1 (amended): a concrete get-attributes invocation
performs exactly the one backend call for its path. -/
theorem metadata_handlers_always_call_backend_witness :
    (getattrHandler (fun _ => Except.error 2) 300 "/a").backendCalls = ["/a"] :=
  (metadata_handlers_always_call_backend (fun _ => Except.error 2)
    (fun _ => Except.ok []) 300 "/a" "/x" "y").1

end Forkspoon
